import Mathlib

/-!
Shallow embedding of the schema management core of `src/Controllers/SchemaController.js`
(wellhealthinc/parse-server).  JavaScript values are modelled by the inductive
type `JVal`; JS objects become association lists from property names to `JVal`,
property reads, writes and deletes become `lookupF`, `setKey` and `eraseKey`,
and the object spread used by `injectDefaultSchema` becomes `jsSpread`.
Promise-returning methods are modelled by their synchronous decision logic,
with the storage adapter and the schema cache abstracted as oracles and the
calls issued to them recorded in explicit effect traces.
-/

/-- Model of a JavaScript (JSON-shaped) value.  `undef` is `undefined` and
`jnull` is `null`; arrays and objects carry their elements / own enumerable
properties in order. -/
inductive JVal where
  | undef : JVal
  | jnull : JVal
  | bool : Bool → JVal
  | num : Int → JVal
  | str : String → JVal
  | arr : List JVal → JVal
  | obj : List (String × JVal) → JVal

/-- JavaScript truthiness of a value. -/
def truthy : JVal → Bool
  | .undef => false
  | .jnull => false
  | .bool b => b
  | .num n => n != 0
  | .str s => s != ""
  | .arr _ => true
  | .obj _ => true

/-- First-match lookup in an association list (a JS own-property read returns
the single binding of the key; lists representing JS objects have distinct
keys). -/
def lookupO : List (String × JVal) → String → Option JVal
  | [], _ => none
  | (k, v) :: rest, key => if k = key then some v else lookupO rest key

/-- Property read defaulting to `undefined` for a missing key. -/
def lookupF (l : List (String × JVal)) (key : String) : JVal :=
  match lookupO l key with
  | some v => v
  | none => JVal.undef

/-- JS property write `o[k] = v`: replaces the binding of `k` in place, or
appends a new binding. -/
def setKey : List (String × JVal) → String → JVal → List (String × JVal)
  | [], k, v => [(k, v)]
  | (k0, v0) :: rest, k, v =>
      if k0 = k then (k0, v) :: rest else (k0, v0) :: setKey rest k v

/-- JS `delete o[k]`: removes the binding(s) of `k`. -/
def eraseKey : List (String × JVal) → String → List (String × JVal)
  | [], _ => []
  | (k0, v0) :: rest, k =>
      if k0 = k then eraseKey rest k else (k0, v0) :: eraseKey rest k

/-- Property read on an arbitrary value; primitives have none of the
properties used by the source, so they read as `undefined`. -/
def getProp (v : JVal) (key : String) : JVal :=
  match v with
  | .obj l => lookupF l key
  | _ => JVal.undef

/-- JS strict equality `===` restricted to the comparisons the source
performs: primitive values compare by value; object/array operands at the
compared call sites are always distinct references, hence unequal. -/
def strictEq : JVal → JVal → Bool
  | .undef, .undef => true
  | .jnull, .jnull => true
  | .bool a, .bool b => a == b
  | .num a, .num b => a == b
  | .str a, .str b => a == b
  | _, _ => false

/-- JS `v != null` (loose): false exactly for `null` and `undefined`. -/
def notNullish : JVal → Bool
  | .undef => false
  | .jnull => false
  | _ => true

/-- JS `||`: first operand if truthy, otherwise the second. -/
def jsOr (a b : JVal) : JVal := if truthy a then a else b

/-- Whether a value is a string. -/
def isStrJ : JVal → Bool
  | .str _ => true
  | _ => false

/-- `Array.prototype.includes` over a list of string literals: only a string
operand can match. -/
def includesStr (l : List String) : JVal → Bool
  | .str s => l.contains s
  | _ => false

/-- The JS object spread `\x7b...a, ...b\x7d`: every binding of `b` is written
into `a` in order, later bindings winning. -/
def jsSpread (a b : List (String × JVal)) : List (String × JVal) :=
  b.foldl (fun acc kv => setKey acc kv.1 kv.2) a

/-- All keys of the association list are distinct (true of any list that
denotes a JS object). -/
def keysDistinct : List (String × JVal) → Bool
  | [] => true
  | (k, _) :: rest => !((rest.map Prod.fst).contains k) && keysDistinct rest

/- ## Name validation (SchemaController.js lines 97-187) -/

/-- The fixed system class names (`systemClasses`, line 97). -/
def systemClasses : List String :=
  ["_User", "_Installation", "_Role", "_Session", "_Product", "_PushStatus"]

/-- The purely in-memory classes (`volatileClasses`, line 99). -/
def volatileClasses : List String := ["_PushStatus", "_Hooks", "_GlobalConfig"]

/-- Character class `[A-Za-z]`. -/
def isAlphaCh (c : Char) : Bool :=
  ('A' ≤ c && c ≤ 'Z') || ('a' ≤ c && c ≤ 'z')

/-- Character class `[A-Za-z0-9_]`. -/
def isWordCh (c : Char) : Bool :=
  isAlphaCh c || ('0' ≤ c && c ≤ '9') || c = '_'

/-- Character class `[a-zA-Z0-9]`. -/
def isAlnumCh (c : Char) : Bool :=
  isAlphaCh c || ('0' ≤ c && c ≤ '9')

/-- `fieldNameIsValid` (line 167): the anchored regex
`[A-Za-z][A-Za-z0-9_]*` over the whole string. -/
def fieldNameIsValid (s : String) : Bool :=
  match s.data with
  | [] => false
  | c :: cs => isAlphaCh c && cs.all isWordCh

/-- Matches a literal character list at the head of the input, returning the
remainder on success. -/
def dropLit : List Char → List Char → Option (List Char)
  | [], cs => some cs
  | _ :: _, [] => none
  | p :: ps, c :: cs => if c = p then dropLit ps cs else none

/-- The test of `joinClassRegex` (line 152):
`^_Join:[A-Za-z0-9_]+:[A-Za-z0-9_]+` — note the pattern is anchored only on
the left, so it matches as a prefix and the input may continue with arbitrary
characters. -/
def joinTailTest (rest : List Char) : Bool :=
  match rest.takeWhile isWordCh, rest.dropWhile isWordCh with
  | [], _ => false
  | _ :: _, c :: r2 => c = ':' && !(r2.takeWhile isWordCh).isEmpty
  | _ :: _, [] => false

def joinClassTest (s : String) : Bool :=
  match dropLit ("_Join:".data) s.data with
  | none => false
  | some rest => joinTailTest rest

/-- `classNameIsValid` (lines 154-164): a system class name, a `_Join` table
name (prefix match), or a string matching the field-name pattern. -/
def classNameIsValid (className : String) : Bool :=
  systemClasses.contains className ||
  joinClassTest className ||
  fieldNameIsValid className

/- ## Default columns (lines 20-95) -/

/-- Shorthand for a field type declaration object with only a `type` tag. -/
def tyDecl (t : String) : JVal := .obj [("type", .str t)]

/-- Shorthand for a `Pointer`/`Relation` declaration with a target class. -/
def tyDeclTC (t tc : String) : JVal :=
  .obj [("type", .str t), ("targetClass", .str tc)]

/-- `defaultColumns._Default` (lines 22-27). -/
def defaultColumnsDefault : List (String × JVal) :=
  [("objectId", tyDecl "String"),
   ("createdAt", tyDecl "Date"),
   ("updatedAt", tyDecl "Date"),
   ("ACL", tyDecl "ACL")]

/-- `defaultColumns[className]` for the class-specific tables
(lines 20-90); the empty list stands for an absent entry. -/
def defaultColumnsFor (className : String) : List (String × JVal) :=
  if className = "_Default" then defaultColumnsDefault
  else if className = "_User" then
    [("username", tyDecl "String"),
     ("password", tyDecl "String"),
     ("email", tyDecl "String"),
     ("emailVerified", tyDecl "Boolean")]
  else if className = "_Installation" then
    [("installationId", tyDecl "String"),
     ("deviceToken", tyDecl "String"),
     ("channels", tyDecl "Array"),
     ("deviceType", tyDecl "String"),
     ("pushType", tyDecl "String"),
     ("GCMSenderId", tyDecl "String"),
     ("timeZone", tyDecl "String"),
     ("localeIdentifier", tyDecl "String"),
     ("badge", tyDecl "Number"),
     ("appVersion", tyDecl "String"),
     ("appName", tyDecl "String"),
     ("appIdentifier", tyDecl "String"),
     ("parseVersion", tyDecl "String")]
  else if className = "_Role" then
    [("name", tyDecl "String"),
     ("users", tyDeclTC "Relation" "_User"),
     ("roles", tyDeclTC "Relation" "_Role")]
  else if className = "_Session" then
    [("restricted", tyDecl "Boolean"),
     ("user", tyDeclTC "Pointer" "_User"),
     ("installationId", tyDecl "String"),
     ("sessionToken", tyDecl "String"),
     ("expiresAt", tyDecl "Date"),
     ("createdWith", tyDecl "Object")]
  else if className = "_Product" then
    [("productIdentifier", tyDecl "String"),
     ("download", tyDecl "File"),
     ("downloadName", tyDecl "String"),
     ("icon", tyDecl "File"),
     ("order", tyDecl "Number"),
     ("title", tyDecl "String"),
     ("subtitle", tyDecl "String")]
  else if className = "_PushStatus" then
    [("pushTime", tyDecl "String"),
     ("source", tyDecl "String"),
     ("query", tyDecl "String"),
     ("payload", tyDecl "String"),
     ("title", tyDecl "String"),
     ("expiry", tyDecl "Number"),
     ("status", tyDecl "String"),
     ("numSent", tyDecl "Number"),
     ("numFailed", tyDecl "Number"),
     ("pushHash", tyDecl "String"),
     ("errorMessage", tyDecl "Object"),
     ("sentPerType", tyDecl "Object"),
     ("failedPerType", tyDecl "Object")]
  else []

/-- `requiredColumns` (lines 92-95). -/
def requiredColumnsFor (className : String) : List String :=
  if className = "_Product" then
    ["productIdentifier", "icon", "order", "title", "subtitle"]
  else if className = "_Role" then ["name", "ACL"]
  else []

/-- `fieldNameIsValidForClass` (lines 172-183): a valid field name that does
not collide with a `_Default` column nor with a class-specific default column
of the class. -/
def fieldNameIsValidForClass (fieldName className : String) : Bool :=
  fieldNameIsValid fieldName &&
  !(truthy (lookupF defaultColumnsDefault fieldName)) &&
  !(truthy (lookupF (defaultColumnsFor className) fieldName))

/- ## Field type declarations (lines 189-220) -/

/-- The eight scalar type tags accepted by `fieldTypeIsInvalid`
(`validNonRelationOrPointerTypes`, lines 190-199). -/
def validNonRelationOrPointerTypes : List String :=
  ["Number", "String", "Boolean", "Date", "Object", "Array", "GeoPoint", "File"]

/-- Outcome of `fieldTypeIsInvalid`: no error, a returned error object with a
Parse error code, or a JS `TypeError` thrown by destructuring a nullish
argument. -/
inductive FTResult where
  | okF : FTResult
  | errF : Int → String → FTResult
  | jsThrowF : FTResult
deriving DecidableEq

/-- `fieldTypeIsInvalid` (lines 201-220).  Parse error codes:
`135` (missing target class), `107` INVALID_JSON, `103` INVALID_CLASS_NAME,
`111` INCORRECT_TYPE. -/
def fieldTypeIsInvalid (decl : JVal) : FTResult :=
  match decl with
  | .undef => .jsThrowF
  | .jnull => .jsThrowF
  | _ =>
    let ty := getProp decl "type"
    let tc := getProp decl "targetClass"
    if includesStr ["Pointer", "Relation"] ty then
      if !(truthy tc) then .errF 135 "type needs a class name"
      else if !(isStrJ tc) then .errF 107 "invalid JSON"
      else if !(match tc with | .str s => classNameIsValid s | _ => false) then
        .errF 103 "invalid classname"
      else .okF
    else if !(isStrJ ty) then .errF 107 "invalid JSON"
    else if !(includesStr validNonRelationOrPointerTypes ty) then
      .errF 111 "invalid field type"
    else .okF

/- ## Schema shape conversion (lines 222-267) -/

/-- A class schema value as passed between the controller, the cache and the
adapter: a class name, a fields object and a class-level-permissions value. -/
structure PSchema where
  className : String
  fields : List (String × JVal)
  classLevelPermissions : JVal

/-- `injectDefaultSchema` (lines 251-259): spread of the `_Default` columns,
the class-specific default columns and the submitted fields, later keys
winning. -/
def injectDefaultSchema (s : PSchema) : PSchema :=
  { className := s.className,
    fields := jsSpread (jsSpread defaultColumnsDefault (defaultColumnsFor s.className)) s.fields,
    classLevelPermissions := s.classLevelPermissions }

/-- `convertSchemaToAdapterSchema` (lines 222-234): injects defaults, removes
`ACL`, adds `_rperm`/`_wperm`, and for `_User` replaces `password` by
`_hashed_password`. -/
def convertSchemaToAdapterSchema (s : PSchema) : PSchema :=
  let s1 := injectDefaultSchema s
  let f1 := eraseKey s1.fields "ACL"
  let f2 := setKey f1 "_rperm" (tyDecl "Array")
  let f3 := setKey f2 "_wperm" (tyDecl "Array")
  if s1.className = "_User" then
    { s1 with fields := setKey (eraseKey f3 "password") "_hashed_password" (tyDecl "String") }
  else
    { s1 with fields := f3 }

/-- `convertAdapterSchemaToParseSchema` (lines 236-249): removes
`_rperm`/`_wperm`, adds `ACL`, and for `_User` removes `authData` and
`_hashed_password` and adds a plain `password` column. -/
def convertAdapterSchemaToParseSchema (s : PSchema) : PSchema :=
  let f1 := eraseKey (eraseKey s.fields "_rperm") "_wperm"
  let f2 := setKey f1 "ACL" (tyDecl "ACL")
  if s.className = "_User" then
    { s with fields := setKey (eraseKey (eraseKey f2 "authData") "_hashed_password") "password" (tyDecl "String") }
  else
    { s with fields := f2 }

/- ## Type compatibility (lines 269-275) -/

/-- `dbTypeMatchesObjectType` (lines 269-275), kept in the source's four-step
form (the last three steps collapse once the first has passed). -/
def dbTypeMatchesObjectType (dbType objectType : JVal) : Bool :=
  if !(strictEq (getProp dbType "type") (getProp objectType "type")) then false
  else if !(strictEq (getProp dbType "targetClass") (getProp objectType "targetClass")) then false
  else if strictEq dbType (getProp objectType "type") then true
  else if strictEq (getProp dbType "type") (getProp objectType "type") then true
  else false

/- ## CLP validation (lines 110-151) -/

/-- `userIdRegex` (line 102): exactly ten alphanumeric characters. -/
def userIdTest (s : String) : Bool :=
  s.data.length == 10 && s.data.all isAlnumCh

/-- `roleRegex` (line 104): the prefix `role:`. -/
def roleTest (s : String) : Bool := "role:".isPrefixOf s

/-- `verifyPermissionKey` (lines 110-118) as a predicate: true when no error
is thrown. -/
def verifyPermissionKey (key : String) : Bool :=
  userIdTest key || roleTest key || key = "*"

/-- `CLPValidKeys` (line 120). -/
def clpValidKeys : List String :=
  ["find", "get", "create", "update", "delete", "addField", "readUserFields", "writeUserFields"]

/-- Outcome of `validateCLP`: returns normally or throws a Parse error. -/
inductive CLPResult where
  | okC : CLPResult
  | throwC : Int → String → CLPResult
deriving DecidableEq

/-- `Object.keys` enumeration with values, as used on a CLP operation entry;
arrays enumerate index keys, primitives enumerate nothing. -/
def keysOfJ : JVal → List (String × JVal)
  | .obj l => l
  | .arr xs => (xs.enum.map (fun p => (toString p.1, p.2)))
  | _ => []

/-- One `readUserFields`/`writeUserFields` element check (lines 134-138): the
element must name a field that exists and is a `Pointer` to `_User`. -/
def userFieldElemOk (fields : List (String × JVal)) (x : JVal) : Bool :=
  let fv := match x with
    | .str s => lookupF fields s
    | _ => .undef
  truthy fv &&
  strictEq (getProp fv "type") (.str "Pointer") &&
  strictEq (getProp fv "targetClass") (.str "_User")

/-- The body of the `forEach` of `validateCLP` (lines 125-150) over one
operation entry. -/
def validateCLPEntry (fields : List (String × JVal)) (operation : String) (v : JVal) : CLPResult :=
  if !(clpValidKeys.contains operation) then
    .throwC 107 "not a valid operation for class level permissions"
  else if operation = "readUserFields" || operation = "writeUserFields" then
    match v with
    | .arr xs =>
        if xs.all (userFieldElemOk fields) then .okC
        else .throwC 107 "not a valid column for class level pointer permissions"
    | _ => .throwC 107 "not a valid value for class level permissions"
  else
    if (keysOfJ v).all (fun p => verifyPermissionKey p.1 && strictEq p.2 (.bool true)) then .okC
    else .throwC 107 "not a valid value for class level permissions"

/-- `validateCLP` (lines 121-151): validates each declared operation in
order; `none` models a missing/undefined perms argument. -/
def validateCLP (perms : Option (List (String × JVal))) (fields : List (String × JVal)) : CLPResult :=
  match perms with
  | none => .okC
  | some entries => go entries
where
  go : List (String × JVal) → CLPResult
  | [] => .okC
  | (op, v) :: rest =>
      match validateCLPEntry fields op v with
      | .okC => go rest
      | .throwC c m => .throwC c m

/- ## Schema data validation (lines 484-529) -/

/-- Outcome of the per-field loop of `validateSchemaData`
(lines 498-515). -/
inductive FLResult where
  | passF : FLResult
  | retF : Int → String → FLResult
  | throwF : FLResult
deriving DecidableEq

/-- The per-field loop of `validateSchemaData` (lines 498-515): each field
that is not an existing field must have a valid name, must not shadow a
default column, and must carry a valid type declaration.  The first offending
field produces an early return, before any mutation of `fields`. -/
def firstLoopCheck (className : String) : List (String × JVal) → List String → FLResult
  | [], _ => .passF
  | (f, decl) :: rest, existingFieldNames =>
      if existingFieldNames.contains f then firstLoopCheck className rest existingFieldNames
      else if !(fieldNameIsValid f) then .retF 105 ("invalid field name: " ++ f)
      else if !(fieldNameIsValidForClass f className) then
        .retF 136 ("field " ++ f ++ " cannot be added")
      else
        match fieldTypeIsInvalid decl with
        | .errF c m => .retF c m
        | .jsThrowF => .throwF
        | .okF => firstLoopCheck className rest existingFieldNames

/-- Outcome of `validateSchemaData`. -/
inductive VSDOutcome where
  | okV : VSDOutcome
  | retErrV : Int → String → VSDOutcome
  | threwV : Int → String → VSDOutcome
  | jsThrowV : VSDOutcome
deriving DecidableEq

/-- `validateSchemaData` (lines 497-529).  The source mutates its `fields`
argument in place at lines 517-519; the embedding returns the final state of
`fields` alongside the outcome, so the second component is what a caller
observes in the mapping it passed in. -/
def validateSchemaData (className : String) (fields : List (String × JVal))
    (classLevelPermissions : Option (List (String × JVal)))
    (existingFieldNames : List String) : VSDOutcome × List (String × JVal) :=
  match firstLoopCheck className fields existingFieldNames with
  | .retF c m => (.retErrV c m, fields)
  | .throwF => (.jsThrowV, fields)
  | .passF =>
    let fields2 := jsSpread fields (defaultColumnsFor className)
    let geoPoints := fields2.filter
      (fun p => truthy p.2 && strictEq (getProp p.2 "type") (.str "GeoPoint"))
    if geoPoints.length > 1 then
      (.retErrV 111 "currently, only one GeoPoint field may exist in an object", fields2)
    else
      match validateCLP classLevelPermissions fields2 with
      | .okC => (.okV, fields2)
      | .throwC c m => (.threwV c m, fields2)

/- ## Class-level permission enforcement (lines 704-748) -/

/-- The controller's `perms` map: class name to the stored CLP object, with
`none` for an absent or undefined entry. -/
def PermsMap := String → Option (List (String × JVal))

/-- `testBaseCLP` (lines 704-719): unrestricted operations pass, the wildcard
key passes, and any acl-group member granted `true` passes. -/
def testBaseCLP (perms : PermsMap) (className : String) (aclGroup : List String)
    (operation : String) : Bool :=
  match perms className with
  | none => true
  | some classPerms =>
      let opPerms := lookupF classPerms operation
      if !(truthy opPerms) then true
      else if truthy (getProp opPerms "*") then true
      else if aclGroup.any (fun acl => strictEq (getProp opPerms acl) (.bool true)) then true
      else false

/-- Result of `validatePermission`: a resolved promise, the stray `return
true` of line 728, or a thrown `OperationForbidden` (code 119). -/
inductive PermResult where
  | resolvedP : PermResult
  | returnedTrueP : PermResult
  | forbiddenP : PermResult
deriving DecidableEq

/-- `validatePermission` (lines 722-748). -/
def validatePermission (perms : PermsMap) (className : String) (aclGroup : List String)
    (operation : String) : PermResult :=
  if testBaseCLP perms className aclGroup operation then .resolvedP
  else
    match perms className with
    | none => .returnedTrueP
    | some classPerms =>
        let opPerms := lookupF classPerms operation
        if !(truthy opPerms) then .returnedTrueP
        else
          let permissionField :=
            if operation = "get" || operation = "find" then "readUserFields"
            else "writeUserFields"
          if permissionField = "writeUserFields" && operation = "create" then .forbiddenP
          else
            match lookupF classPerms permissionField with
            | .arr (_ :: _) => .resolvedP
            | _ => .forbiddenP

/- ## Field enforcement (lines 545-596, 752-758) -/

/-- The controller's materialized view `data`: class name to fields object
(`none` for an unknown class).  `enforceFieldExists` reads it immediately
after a `reloadData`, so the argument passed below is the freshly reloaded
view. -/
def SchemaData := String → Option (List (String × JVal))

/-- `getExpectedType` (lines 752-758).  The legacy rewrite of the string
`'map'` to `'Object'` cannot fire here because the stored type of a field is
always a declaration object in this embedding, never a bare string. -/
def getExpectedType (data : SchemaData) (className fieldName : String) : Option JVal :=
  match data className with
  | some fields =>
      match lookupO fields fieldName with
      | some v => some v
      | none => none
  | none => none

/-- Index of the first occurrence of a character (`-1` when absent), as JS
`indexOf`. -/
def indexOfCh (c : Char) : List Char → Int
  | [] => -1
  | x :: xs =>
      if x = c then 0
      else
        let r := indexOfCh c xs
        if r < 0 then -1 else r + 1

/-- Position of the first `'.'` in a string, as JS `indexOf` (`-1` when
absent). -/
def dotIndex (s : String) : Int := indexOfCh '.' s.data

/-- Everything before the first `'.'` (JS `s.split('.')[0]`). -/
def dotRoot (s : String) : String :=
  ⟨s.data.takeWhile (fun c => c ≠ '.')⟩

/-- Outcome of the decision logic of `enforceFieldExists` (lines 545-596).
`invalidKeyE` is the synchronous throw of line 552; `noopNoType` the early
resolve of line 557; `mismatchE` the type-mismatch rejection of lines
566-572, carrying `expectedType.type || expectedType` and `type.type` exactly
as the source message does; `matchedNoop` the resolve of line 573 that issues
no adapter call and leaves all state unchanged; `proceedAddE` the
continuation of line 576 that asks the storage adapter to add the field. -/
inductive EnforceResult where
  | invalidKeyE : String → EnforceResult
  | noopNoType : EnforceResult
  | mismatchE : JVal → JVal → EnforceResult
  | matchedNoop : EnforceResult
  | proceedAddE : String → JVal → EnforceResult

/-- `enforceFieldExists` (lines 545-596) up to the storage-adapter
interaction: dotted names are rooted as `Object`-typed fields, the name is
validated, a falsy type argument is a no-op, a string type argument is
wrapped, and a recorded type is compared with `dbTypeMatchesObjectType`. -/
def enforceFieldExists (data : SchemaData) (className fieldName : String) (type : JVal) :
    EnforceResult :=
  let rooted := dotIndex fieldName > 0
  let fieldName1 := if rooted then dotRoot fieldName else fieldName
  let type1 : JVal := if rooted then .str "Object" else type
  if !(fieldNameIsValid fieldName1) then .invalidKeyE fieldName1
  else if !(truthy type1) then .noopNoType
  else
    let type2 : JVal := match type1 with
      | .str s => .obj [("type", .str s)]
      | v => v
    match getExpectedType data className fieldName1 with
    | some expectedType =>
        if !(dbTypeMatchesObjectType expectedType type2) then
          .mismatchE (jsOr (getProp expectedType "type") expectedType) (getProp type2 "type")
        else .matchedNoop
    | none => .proceedAddE fieldName1 type2

/- ## deleteField (lines 605-638) -/

/-- A storage/cache call issued by `deleteField`, in order. -/
inductive DFEffect where
  | cacheClearEff : DFEffect
  | cacheGetOneEff : DFEffect
  | adapterGetClassEff : DFEffect
  | cacheSetOneEff : DFEffect
  | adapterDeleteFieldsEff : DFEffect
  | adapterDeleteClassEff : DFEffect
deriving DecidableEq

/-- A thrown Parse error: code and message. -/
structure PErr where
  code : Int
  msg : String
deriving DecidableEq

/-- Oracle for the external collaborators of `deleteField`: the result of the
schema fetch (`Except.error none` models a rejection with `undefined`, the
case the source maps to a class-does-not-exist error) and of the two adapter
mutations. -/
structure DeleteFieldOracle where
  getOneSchemaR : Except (Option PErr) (List (String × JVal))
  deleteFieldsR : Except PErr Unit
  deleteClassR : Except PErr Unit

/-- `deleteField` (lines 605-638) with an explicit effect trace.  The three
name checks at lines 606-615 throw synchronously, before the
`getOneSchema(className, false, clearCache)` fetch (which clears the cache,
misses it because of the forced clear, queries the adapter and repopulates
the cache) and before any adapter mutation. -/
def deleteField (o : DeleteFieldOracle) (fieldName className : String) :
    Except PErr Unit × List DFEffect :=
  if !(classNameIsValid className) then
    (.error ⟨103, "Invalid classname: " ++ className⟩, [])
  else if !(fieldNameIsValid fieldName) then
    (.error ⟨105, "invalid field name: " ++ fieldName⟩, [])
  else if !(fieldNameIsValidForClass fieldName className) then
    (.error ⟨136, "field " ++ fieldName ++ " cannot be changed"⟩, [])
  else
    let fetch := [DFEffect.cacheClearEff, DFEffect.cacheGetOneEff,
                  DFEffect.adapterGetClassEff, DFEffect.cacheSetOneEff]
    match o.getOneSchemaR with
    | .error none => (.error ⟨103, "Class " ++ className ++ " does not exist."⟩, fetch)
    | .error (some e) => (.error e, fetch)
    | .ok fields =>
        if !(truthy (lookupF fields fieldName)) then
          (.error ⟨255, "Field " ++ fieldName ++ " does not exist, cannot delete."⟩, fetch)
        else if strictEq (getProp (lookupF fields fieldName) "type") (.str "Relation") then
          match o.deleteFieldsR with
          | .error e => (.error e, fetch ++ [DFEffect.adapterDeleteFieldsEff])
          | .ok _ =>
              match o.deleteClassR with
              | .error e =>
                  (.error e, fetch ++ [DFEffect.adapterDeleteFieldsEff, DFEffect.adapterDeleteClassEff])
              | .ok _ =>
                  (.ok (), fetch ++ [DFEffect.adapterDeleteFieldsEff, DFEffect.adapterDeleteClassEff,
                                     DFEffect.cacheClearEff])
        else
          match o.deleteFieldsR with
          | .error e => (.error e, fetch ++ [DFEffect.adapterDeleteFieldsEff])
          | .ok _ => (.ok (), fetch ++ [DFEffect.adapterDeleteFieldsEff, DFEffect.cacheClearEff])

/- ## reloadData single-flight (lines 293-323) -/

/-- The reload-relevant controller state: the identity of the in-flight
reload promise, if any, and a counter supplying fresh promise identities. -/
structure ReloadState where
  reloadInFlight : Option Nat
  nextPromiseId : Nat
deriving DecidableEq

/-- An externally visible step taken by `reloadData`. -/
inductive ReloadEffect where
  | cacheClearR : ReloadEffect
  | fetchAllClassesR : ReloadEffect
deriving DecidableEq

/-- `reloadData` (lines 293-323): with `clearCache` the cache is cleared and
a fresh reload always starts; without it, an in-flight reload promise is
returned as-is (single-flight de-duplication) and no second fetch of all
classes is issued.  The returned `Nat` is the identity of the promise handed
back to the caller. -/
def reloadData (st : ReloadState) (clearCache : Bool) :
    Nat × ReloadState × List ReloadEffect :=
  let pre := if clearCache then [ReloadEffect.cacheClearR] else []
  match st.reloadInFlight, clearCache with
  | some p, false => (p, st, pre)
  | _, _ =>
      (st.nextPromiseId,
       { reloadInFlight := some st.nextPromiseId, nextPromiseId := st.nextPromiseId + 1 },
       pre ++ [ReloadEffect.fetchAllClassesR])

/- ## Value classification (lines 815-900) -/

/-- An abrupt completion of `getType`/`getObjectType`: a thrown Parse error,
a thrown plain string, a JS `TypeError` from a nullish property access, or
exhaustion of the recursion fuel of the embedding (the source recurses
through `$ne` values and `Batch` operator lists). -/
inductive GErr where
  | parseErrG : Int → String → GErr
  | strThrowG : String → GErr
  | jsTypeErrG : GErr
  | fuelOutG : GErr
deriving DecidableEq

/-- The `switch (obj.__type)` of `getObjectType` (lines 846-873).  The switch
has no `break`s: a `Pointer` without a truthy `className` falls through into
the `File` arm, a `File` without a `name` into the `Date` arm, and so on down
to `Bytes` (whose successful arm is a bare `return`, i.e. `undefined`) and
the throwing `default` arm. -/
def getObjectTypeSwitch (t : JVal) (v : JVal) : Except GErr JVal :=
  let isP := strictEq t (.str "Pointer")
  let isF := isP || strictEq t (.str "File")
  let isD := isF || strictEq t (.str "Date")
  let isG := isD || strictEq t (.str "GeoPoint")
  let isB := isG || strictEq t (.str "Bytes")
  if isP && truthy (getProp v "className") then
    .ok (.obj [("type", .str "Pointer"), ("targetClass", getProp v "className")])
  else if isF && truthy (getProp v "name") then .ok (.str "File")
  else if isD && truthy (getProp v "iso") then .ok (.str "Date")
  else if isG && notNullish (getProp v "latitude") && notNullish (getProp v "longitude") then
    .ok (.str "GeoPoint")
  else if isB && truthy (getProp v "base64") then .ok .undef
  else .error (.parseErrG 111 "This is not a valid type tag")

/-- `getObjectType` (lines 841-900).  Property reads on `null`/`undefined`
throw a JS `TypeError`; every other value answers the `instanceof`/property
probes (primitives have no own properties and classify as `Object`). -/
def getObjectType (fuel : Nat) (v : JVal) : Except GErr JVal :=
  match fuel with
  | 0 => .error .fuelOutG
  | fuel + 1 =>
    match v with
    | .undef => .error .jsTypeErrG
    | .jnull => .error .jsTypeErrG
    | .arr _ => .ok (.str "Array")
    | _ =>
      let t := getProp v "__type"
      if truthy t then getObjectTypeSwitch t v
      else if truthy (getProp v "$ne") then getObjectType fuel (getProp v "$ne")
      else
        let op := getProp v "__op"
        if truthy op then
          if strictEq op (.str "Increment") then .ok (.str "Number")
          else if strictEq op (.str "Delete") then .ok .jnull
          else if strictEq op (.str "Add") || strictEq op (.str "AddUnique") ||
                  strictEq op (.str "Remove") then .ok (.str "Array")
          else if strictEq op (.str "AddRelation") || strictEq op (.str "RemoveRelation") then
            match getProp v "objects" with
            | .arr (x :: _) =>
                (match x with
                 | .undef => .error .jsTypeErrG
                 | .jnull => .error .jsTypeErrG
                 | _ => .ok (.obj [("type", .str "Relation"), ("targetClass", getProp x "className")]))
            | .arr [] => .error .jsTypeErrG
            | .obj l =>
                (match lookupF l "0" with
                 | .undef => .error .jsTypeErrG
                 | .jnull => .error .jsTypeErrG
                 | x => .ok (.obj [("type", .str "Relation"), ("targetClass", getProp x "className")]))
            | .jnull => .error .jsTypeErrG
            | .undef => .error .jsTypeErrG
            | _ => .error .jsTypeErrG
          else if strictEq op (.str "Batch") then
            match getProp v "ops" with
            | .arr (x :: _) => getObjectType fuel x
            | .arr [] => getObjectType fuel .undef
            | .obj l => getObjectType fuel (lookupF l "0")
            | _ => .error .jsTypeErrG
          else .error (.strThrowG "unexpected op")
        else .ok (.str "Object")

/-- `getType` (lines 815-836): dispatch on `typeof`; falsy objects (`null`)
classify as `undefined`, and `undefined` itself throws `'bad obj'`. -/
def getType (fuel : Nat) (v : JVal) : Except GErr JVal :=
  match v with
  | .bool _ => .ok (.str "Boolean")
  | .str _ => .ok (.str "String")
  | .num _ => .ok (.str "Number")
  | .jnull => .ok .undef
  | .undef => .error (.strThrowG "bad obj")
  | .arr _ => getObjectType fuel v
  | .obj _ => getObjectType fuel v

/- ## validateObject (lines 643-674) -/

/-- An abrupt completion of the field loop of `validateObject`: a
classification throw propagated out of `getType`, or the
only-one-geopoint rejection (code 111, raised once the enforcement promises
accumulated so far have settled). -/
inductive VOErr where
  | typeThrowVO : GErr → VOErr
  | tooManyGeoVO : VOErr
deriving DecidableEq

/-- The field loop of `validateObject` (lines 643-674): fields with
`undefined` values are skipped; each remaining value is classified; a second
`GeoPoint`-classified value rejects the object with the
only-one-geopoint error (the running count never consults the class schema);
falsy classifications and the implicit `ACL` field are skipped; every other
field is queued for `enforceFieldExists`, in order.  On success the queued
enforcements are returned. -/
def validateObjectLoop (fuel : Nat) : List (String × JVal) → Nat →
    List (String × JVal) → Except VOErr (List (String × JVal))
  | [], _, acc => .ok acc.reverse
  | (fieldName, v) :: rest, geocount, acc =>
      if strictEq v .undef then validateObjectLoop fuel rest geocount acc
      else
        match getType fuel v with
        | .error e => .error (.typeThrowVO e)
        | .ok expected =>
            let geocount1 := if strictEq expected (.str "GeoPoint") then geocount + 1 else geocount
            if geocount1 > 1 then .error .tooManyGeoVO
            else if !(truthy expected) then validateObjectLoop fuel rest geocount1 acc
            else if fieldName = "ACL" then validateObjectLoop fuel rest geocount1 acc
            else validateObjectLoop fuel rest geocount1 ((fieldName, expected) :: acc)

/-- Entry point of the loop above, with the geopoint counter at zero. -/
def validateObjectCheck (fuel : Nat) (object : List (String × JVal)) :
    Except VOErr (List (String × JVal)) :=
  validateObjectLoop fuel object 0 []

/- ## Spec-side definitions (used only to state claims against the code) -/

/-- Modelled from the spec: the ten scalar tags the spec's FieldType data
model lists as valid without extra data. -/
def specTenScalarTags : List String :=
  ["Number", "String", "Boolean", "Date", "Object", "Array", "GeoPoint", "File", "Bytes", "ACL"]

/-- Modelled from the spec: a declaration is accepted when its tag is one of
the ten scalar tags, or is `Pointer`/`Relation` with a string target class
passing class-name validation. -/
def specFieldTypeAccepts (decl : JVal) : Bool :=
  match getProp decl "type" with
  | .str t =>
      if t = "Pointer" || t = "Relation" then
        match getProp decl "targetClass" with
        | .str tc => classNameIsValid tc
        | _ => false
      else specTenScalarTags.contains t
  | _ => false

/-- The set of declarations the code actually accepts (amended claim):
the eight scalar tags of `validNonRelationOrPointerTypes`, or
`Pointer`/`Relation` with a truthy string target class passing class-name
validation; nullish declarations throw instead. -/
def amendedFieldTypeAccepts (decl : JVal) : Bool :=
  match decl with
  | .undef => false
  | .jnull => false
  | _ =>
    match getProp decl "type" with
    | .str t =>
        if t = "Pointer" ∨ t = "Relation" then
          match getProp decl "targetClass" with
          | .str tc => if tc = "" then false else classNameIsValid tc
          | _ => false
        else validNonRelationOrPointerTypes.contains t
    | _ => false

/-- Splits a character list at every colon (the segments of `a:b:c`). -/
def splitOnColon : List Char → List (List Char)
  | [] => [[]]
  | c :: rest =>
      let r := splitOnColon rest
      if c = ':' then [] :: r
      else
        match r with
        | seg :: segs => (c :: seg) :: segs
        | [] => [[c]]

/-- Modelled from the spec: a class name is valid when it is a system class
name, or it is of the form `_Join:<field>:<class>` in full (exactly three
colon-separated segments, the first being `_Join` and the other two nonempty
runs of `[A-Za-z0-9_]`, with nothing after the class segment), or it matches
the field-name pattern. -/
def specClassNameValid (s : String) : Bool :=
  systemClasses.contains s ||
  (match splitOnColon s.data with
   | [j, a, b] =>
       (j == "_Join".data) && !(a.isEmpty) && a.all isWordCh && !(b.isEmpty) && b.all isWordCh
   | _ => false) ||
  fieldNameIsValid s

/-- Whether a value is a nonempty JS array (the test the claims state for
`readUserFields`/`writeUserFields`). -/
def nonEmptyArr : JVal → Bool
  | .arr (_ :: _) => true
  | _ => false

/-- A well-formed GeoPoint value in REST format. -/
def geoPointVal : JVal :=
  .obj [("__type", .str "GeoPoint"), ("latitude", .num 40), ("longitude", .num 20)]

/-- A default field of a class in the sense of the claims: one of the four
`_Default` columns, or a class-specific default column of the class. -/
def isDefaultField (fieldName className : String) : Bool :=
  truthy (lookupF defaultColumnsDefault fieldName) ||
  truthy (lookupF (defaultColumnsFor className) fieldName)

/-- A schema value in the public representation: `ACL` present as the
implicit ACL column, no `_rperm`/`_wperm`, and for the user class a plain
`password` column and no `_hashed_password`. -/
def publicRepForm (s : PSchema) : Prop :=
  lookupO s.fields "ACL" = some (tyDecl "ACL") ∧
  lookupO s.fields "_rperm" = none ∧
  lookupO s.fields "_wperm" = none ∧
  (s.className = "_User" →
    lookupO s.fields "password" = some (tyDecl "String") ∧
    lookupO s.fields "_hashed_password" = none)

/-- A schema value in the adapter representation: no `ACL`, array-typed
`_rperm`/`_wperm`, and for the user class a `_hashed_password` column and no
plain `password`. -/
def adapterRepForm (s : PSchema) : Prop :=
  lookupO s.fields "ACL" = none ∧
  lookupO s.fields "_rperm" = some (tyDecl "Array") ∧
  lookupO s.fields "_wperm" = some (tyDecl "Array") ∧
  (s.className = "_User" →
    lookupO s.fields "password" = none ∧
    lookupO s.fields "_hashed_password" = some (tyDecl "String"))

/-- The five field names the two schema-shape conversions touch, per the
claim. -/
def touchedKeys : List String :=
  ["ACL", "_rperm", "_wperm", "password", "_hashed_password"]

/-- Number of fields of an object whose defined value classifies as
`GeoPoint` (used to state the amended geopoint claim). -/
def geoValueCount (fuel : Nat) (object : List (String × JVal)) : Nat :=
  (object.filter (fun p => !(strictEq p.2 .undef) &&
    (match getType fuel p.2 with
     | .ok t => strictEq t (.str "GeoPoint")
     | .error _ => false))).length

/- ## Association-list lemmas -/

theorem lookupO_setKey (l : List (String × JVal)) (k : String) (v : JVal) (key : String) :
    lookupO (setKey l k v) key = if key = k then some v else lookupO l key := by
  induction l with
  | nil =>
      simp only [setKey, lookupO]
      by_cases h : k = key
      · subst h; simp
      · rw [if_neg h, if_neg (fun h2 : key = k => h h2.symm)]
  | cons hd tl ih =>
      obtain ⟨k0, v0⟩ := hd
      by_cases h0 : k0 = k
      · subst h0
        simp only [setKey, if_pos rfl, lookupO]
        by_cases h : k0 = key
        · subst h; simp
        · rw [if_neg h, if_neg (fun h2 : key = k0 => h h2.symm), if_neg h]
      · simp only [setKey, if_neg h0, lookupO, ih]
        by_cases h : k0 = key
        · subst h
          simp [h0]
        · simp [h]

theorem lookupO_eraseKey (l : List (String × JVal)) (k key : String) :
    lookupO (eraseKey l k) key = if key = k then none else lookupO l key := by
  induction l with
  | nil => simp [eraseKey, lookupO]
  | cons hd tl ih =>
      obtain ⟨k0, v0⟩ := hd
      by_cases h0 : k0 = k
      · subst h0
        have hre : eraseKey ((k0, v0) :: tl) k0 = eraseKey tl k0 := by
          simp [eraseKey]
        rw [hre, ih]
        by_cases h : key = k0
        · simp [h]
        · simp [h, lookupO]
          rw [if_neg (Ne.symm h)]
      · have hre : eraseKey ((k0, v0) :: tl) k = (k0, v0) :: eraseKey tl k := by
          simp [eraseKey, h0]
        rw [hre]
        simp only [lookupO]
        by_cases h : k0 = key
        · subst h
          simp [fun h2 : k0 = k => h0 h2]
        · simp [h, ih]

theorem lookupO_append (a b : List (String × JVal)) (key : String) :
    lookupO (a ++ b) key =
      match lookupO a key with
      | some v => some v
      | none => lookupO b key := by
  induction a with
  | nil => simp [lookupO]
  | cons hd tl ih =>
      obtain ⟨k0, v0⟩ := hd
      simp only [List.cons_append, lookupO]
      by_cases h : k0 = key
      · simp [h]
      · simp [h, ih]

theorem lookupO_jsSpread (b a : List (String × JVal)) (key : String) :
    lookupO (jsSpread a b) key =
      match lookupO b.reverse key with
      | some v => some v
      | none => lookupO a key := by
  induction b generalizing a with
  | nil => simp [jsSpread, lookupO]
  | cons hd tl ih =>
      obtain ⟨k0, v0⟩ := hd
      have step : jsSpread a ((k0, v0) :: tl) = jsSpread (setKey a k0 v0) tl := by
        simp [jsSpread]
      rw [step, ih, List.reverse_cons, lookupO_append]
      cases htl : lookupO tl.reverse key with
      | some v => simp
      | none =>
          rw [lookupO_setKey]
          simp only [lookupO]
          by_cases h : key = k0
          · subst h; simp
          · rw [if_neg h, if_neg (fun h2 : k0 = key => h h2.symm)]

theorem lookupO_none_iff (l : List (String × JVal)) (key : String) :
    lookupO l key = none ↔ ∀ p ∈ l, p.1 ≠ key := by
  induction l with
  | nil => simp [lookupO]
  | cons hd tl ih =>
      obtain ⟨k0, v0⟩ := hd
      simp only [lookupO]
      by_cases h : k0 = key
      · subst h; simp
      · simp [h, ih]

theorem lookupO_reverse_none (l : List (String × JVal)) (key : String)
    (h : lookupO l key = none) : lookupO l.reverse key = none := by
  rw [lookupO_none_iff] at h ⊢
  intro p hp
  exact h p (List.mem_reverse.mp hp)

theorem keysDistinct_cons (k : String) (v : JVal) (rest : List (String × JVal)) :
    keysDistinct ((k, v) :: rest) = true ↔
      ((rest.map Prod.fst).contains k = false ∧ keysDistinct rest = true) := by
  simp [keysDistinct]

theorem contains_false_lookupO_none (l : List (String × JVal)) (key : String)
    (h : (l.map Prod.fst).contains key = false) : lookupO l key = none := by
  rw [lookupO_none_iff]
  intro p hp hkey
  have hmem : key ∈ l.map Prod.fst := List.mem_map.mpr ⟨p, hp, hkey⟩
  have h2 : ¬ ((l.map Prod.fst).any (fun x => key == x) = true) := by
    rw [List.contains_eq_any_beq] at h
    simp [h]
  rw [List.any_eq_true] at h2
  push_neg at h2
  have h3 := h2 key hmem
  simp at h3

theorem lookupO_reverse_of_distinct (l : List (String × JVal)) (key : String)
    (h : keysDistinct l = true) : lookupO l.reverse key = lookupO l key := by
  induction l with
  | nil => simp
  | cons hd tl ih =>
      obtain ⟨k0, v0⟩ := hd
      rw [keysDistinct_cons] at h
      obtain ⟨hnc, hdist⟩ := h
      rw [List.reverse_cons, lookupO_append, ih hdist]
      simp only [lookupO]
      by_cases h : k0 = key
      · subst h
        rw [contains_false_lookupO_none tl k0 hnc]
      · rw [if_neg h]
        cases htl : lookupO tl key
        · simp [lookupO, h]
        · simp [h]

theorem contains_eq_false_iff (l : List String) (k : String) :
    (l.contains k = false) ↔ k ∉ l := by
  rw [List.contains_eq_any_beq]
  constructor
  · intro h hmem
    have h2 : ¬ (l.any (fun x => k == x) = true) := by simp [h]
    rw [List.any_eq_true] at h2
    push_neg at h2
    have h3 := h2 k hmem
    simp at h3
  · intro h
    rw [← Bool.not_eq_true, List.any_eq_true]
    push_neg at h ⊢
    intro x hx
    by_cases hkx : k = x
    · exact absurd (hkx ▸ hx) h
    · simp [hkx]

theorem keysDistinct_iff (l : List (String × JVal)) :
    keysDistinct l = true ↔ (l.map Prod.fst).Nodup := by
  induction l with
  | nil => simp [keysDistinct]
  | cons hd tl ih =>
      obtain ⟨k0, v0⟩ := hd
      simp [keysDistinct_cons, ih, contains_eq_false_iff]

theorem map_fst_setKey (l : List (String × JVal)) (k : String) (v : JVal) :
    (setKey l k v).map Prod.fst =
      if k ∈ l.map Prod.fst then l.map Prod.fst else l.map Prod.fst ++ [k] := by
  induction l with
  | nil => simp [setKey]
  | cons hd tl ih =>
      obtain ⟨k0, v0⟩ := hd
      by_cases h0 : k0 = k
      · subst h0
        simp [setKey]
      · simp only [setKey, if_neg h0, List.map_cons, ih]
        by_cases hmem : k ∈ tl.map Prod.fst
        · simp [hmem, Ne.symm h0]
        · simp [hmem, Ne.symm h0]

theorem map_fst_eraseKey (l : List (String × JVal)) (k : String) :
    (eraseKey l k).map Prod.fst = (l.map Prod.fst).filter (fun x => !(x == k)) := by
  induction l with
  | nil => simp [eraseKey]
  | cons hd tl ih =>
      obtain ⟨k0, v0⟩ := hd
      by_cases h0 : k0 = k
      · subst h0
        simp [eraseKey, ih]
      · simp [eraseKey, h0, ih]

theorem keysDistinct_setKey (l : List (String × JVal)) (k : String) (v : JVal)
    (h : keysDistinct l = true) : keysDistinct (setKey l k v) = true := by
  rw [keysDistinct_iff] at h ⊢
  rw [map_fst_setKey]
  by_cases hmem : k ∈ l.map Prod.fst
  · simpa [hmem] using h
  · simp [hmem, List.nodup_append, h]

theorem keysDistinct_eraseKey (l : List (String × JVal)) (k : String)
    (h : keysDistinct l = true) : keysDistinct (eraseKey l k) = true := by
  rw [keysDistinct_iff] at h ⊢
  rw [map_fst_eraseKey]
  exact h.filter _

/- ## Default-table facts -/

theorem defaultColumnsFor_distinct (cn : String) :
    keysDistinct (defaultColumnsFor cn) = true := by
  unfold defaultColumnsFor
  split_ifs <;> decide

theorem defaults_no_rperm (cn : String) :
    lookupO (defaultColumnsFor cn) "_rperm" = none := by
  unfold defaultColumnsFor
  split_ifs <;> rfl

theorem defaults_no_wperm (cn : String) :
    lookupO (defaultColumnsFor cn) "_wperm" = none := by
  unfold defaultColumnsFor
  split_ifs <;> rfl

theorem defaults_no_hashed (cn : String) :
    lookupO (defaultColumnsFor cn) "_hashed_password" = none := by
  unfold defaultColumnsFor
  split_ifs <;> rfl

theorem defaults_no_password (cn : String) (h : ¬ cn = "_User") :
    lookupO (defaultColumnsFor cn) "password" = none := by
  unfold defaultColumnsFor
  split_ifs <;> rfl

/- ## String and character helpers -/

theorem takeWhile_all (p : Char → Bool) (l : List Char) :
    (l.takeWhile p).all p = true := by
  induction l with
  | nil => rfl
  | cons c cs ih =>
      by_cases h : p c
      · simp [List.takeWhile_cons, h, ih]
      · simp [List.takeWhile_cons, h]

theorem takeWhile_append_of_all (p : Char → Bool) (a : List Char) (c : Char) (r : List Char)
    (ha : a.all p = true) (hc : p c = false) :
    (a ++ c :: r).takeWhile p = a := by
  induction a with
  | nil => simp [List.takeWhile_cons, hc]
  | cons x xs ih =>
      simp only [List.all_cons, Bool.and_eq_true] at ha
      simp [List.takeWhile_cons, ha.1, ih ha.2]

theorem dropWhile_append_of_all (p : Char → Bool) (a : List Char) (c : Char) (r : List Char)
    (ha : a.all p = true) (hc : p c = false) :
    (a ++ c :: r).dropWhile p = c :: r := by
  induction a with
  | nil => simp [List.dropWhile_cons, hc]
  | cons x xs ih =>
      simp only [List.all_cons, Bool.and_eq_true] at ha
      simp [List.dropWhile_cons, ha.1, ih ha.2]

theorem dropLit_sound (pre cs r : List Char) (h : dropLit pre cs = some r) :
    cs = pre ++ r := by
  induction pre generalizing cs with
  | nil => simpa [dropLit] using h
  | cons p ps ih =>
      cases cs with
      | nil => simp [dropLit] at h
      | cons c cs2 =>
          simp only [dropLit] at h
          by_cases hc : c = p
          · subst hc
            rw [if_pos rfl] at h
            simpa using ih cs2 h
          · rw [if_neg hc] at h
            exact absurd h (by simp)

theorem dropLit_complete (pre r : List Char) : dropLit pre (pre ++ r) = some r := by
  induction pre with
  | nil => simp [dropLit]
  | cons p ps ih => simp [dropLit, ih]

theorem isWordCh_no_dot (c : Char) (h : isWordCh c = true) : ¬ (c = '.') := by
  intro hc
  subst hc
  simp [isWordCh, isAlphaCh] at h

theorem isAlphaCh_no_dot (c : Char) (h : isAlphaCh c = true) : ¬ (c = '.') := by
  intro hc
  subst hc
  simp [isAlphaCh] at h

theorem indexOfCh_dot_none (l : List Char) (h : ∀ c ∈ l, ¬ (c = '.')) :
    indexOfCh '.' l = -1 := by
  induction l with
  | nil => rfl
  | cons c cs ih =>
      have hc : ¬ (c = '.') := h c (List.mem_cons_self c cs)
      simp only [indexOfCh, if_neg hc]
      rw [ih (fun x hx => h x (List.mem_cons_of_mem c hx))]
      norm_num

theorem valid_name_no_dot (f : String) (h : fieldNameIsValid f = true) :
    dotIndex f = -1 := by
  unfold fieldNameIsValid at h
  unfold dotIndex
  cases hd : f.data with
  | nil => simp [hd] at h
  | cons c cs =>
      rw [hd] at h
      simp only [Bool.and_eq_true] at h
      rw [indexOfCh_dot_none]
      intro x hx
      rcases List.mem_cons.mp hx with hx1 | hx2
      · subst hx1
        exact isAlphaCh_no_dot x h.1
      · have := List.all_eq_true.mp h.2 x hx2
        exact isWordCh_no_dot x this

/- ## Lookup/validity helpers for default fields -/

theorem lookup_truthy_key_mem (l : List (String × JVal)) (f : String)
    (h : truthy (lookupF l f) = true) : f ∈ l.map Prod.fst := by
  by_contra hmem
  have hc : (l.map Prod.fst).contains f = false := (contains_eq_false_iff _ _).mpr hmem
  have hnone := contains_false_lookupO_none l f hc
  rw [lookupF, hnone] at h
  simp [truthy] at h

theorem lookup_truthy_valid_name (l : List (String × JVal)) (f : String)
    (hall : l.all (fun p => fieldNameIsValid p.1) = true)
    (h : truthy (lookupF l f) = true) : fieldNameIsValid f = true := by
  have hm := lookup_truthy_key_mem l f h
  obtain ⟨p, hp, hfst⟩ := List.mem_map.mp hm
  rw [← hfst]
  exact List.all_eq_true.mp hall p hp

theorem default_field_name_valid (f c : String) (h : isDefaultField f c = true) :
    fieldNameIsValid f = true := by
  unfold isDefaultField at h
  rw [Bool.or_eq_true] at h
  rcases h with h1 | h2
  · exact lookup_truthy_valid_name _ f (by decide) h1
  · revert h2
    unfold defaultColumnsFor
    split_ifs <;> intro h2 <;> exact lookup_truthy_valid_name _ f (by decide) h2

theorem default_field_not_valid_for_class (f c : String) (h : isDefaultField f c = true) :
    fieldNameIsValidForClass f c = false := by
  unfold isDefaultField at h
  unfold fieldNameIsValidForClass
  rw [Bool.or_eq_true] at h
  rcases h with h1 | h2
  · simp [h1]
  · simp [h2]

/- ## Claim theorems -/

/-- C9: value classification does not reject every malformed tagged object —
the switch of `getObjectType` falls through: an object with
`__type: 'Pointer'` and no `className` but a truthy `name` classifies as
`File`, and an object with `__type: 'File'`, no `name` and a truthy `iso`
classifies as `Date`; neither raises an error. -/
theorem c9_get_object_type_fallthrough :
    getObjectType 1 (.obj [("__type", .str "Pointer"), ("name", .str "photo.png")]) =
      .ok (.str "File") ∧
    getObjectType 1 (.obj [("__type", .str "File"), ("iso", .str "2024-01-01")]) =
      .ok (.str "Date") :=
  ⟨rfl, rfl⟩

/-- C8: reload is single-flight — while a reload is in flight, a non-forced
`reloadData` returns the very same in-flight promise, changes no state and
issues no fetch (and no cache clear); a `clearCache` reload always clears the
cache and starts a fresh fetch with a brand-new promise, never
de-duplicating. -/
theorem c8_reload_single_flight :
    (∀ (st : ReloadState) (p : Nat), st.reloadInFlight = some p →
        reloadData st false = (p, st, [])) ∧
    (∀ st : ReloadState,
        reloadData st true =
          (st.nextPromiseId,
           { reloadInFlight := some st.nextPromiseId, nextPromiseId := st.nextPromiseId + 1 },
           [ReloadEffect.cacheClearR, ReloadEffect.fetchAllClassesR])) := by
  constructor
  · intro st p h
    simp [reloadData, h]
  · intro st
    cases hst : st.reloadInFlight <;> simp [reloadData, hst]

/-- Witness for C8 at a concrete state: a non-forced reload while promise 7
is in flight returns promise 7 untouched, and a forced reload starts fresh
promise 8. -/
theorem c8_reload_single_flight_witness :
    reloadData ⟨some 7, 8⟩ false = (7, ⟨some 7, 8⟩, []) ∧
    reloadData ⟨some 7, 8⟩ true =
      (8, ⟨some 8, 9⟩, [ReloadEffect.cacheClearR, ReloadEffect.fetchAllClassesR]) :=
  ⟨c8_reload_single_flight.1 ⟨some 7, 8⟩ 7 rfl, c8_reload_single_flight.2 ⟨some 7, 8⟩⟩

/-- C6: for every valid class name and every default field of that class
(a `_Default` column or a class-specific default column), `deleteField`
fails with the forbidden-change error, code 136, synchronously: the returned
effect trace is empty, so no storage-adapter or cache call was made and all
state is unchanged, whatever the oracle would have answered. -/
theorem c6_delete_default_field (o : DeleteFieldOracle) (fieldName className : String)
    (hc : classNameIsValid className = true)
    (hd : isDefaultField fieldName className = true) :
    deleteField o fieldName className =
      (.error ⟨136, "field " ++ fieldName ++ " cannot be changed"⟩, []) := by
  have hfv := default_field_name_valid fieldName className hd
  have hnv := default_field_not_valid_for_class fieldName className hd
  simp [deleteField, hc, hfv, hnv]

/-- Witness for C6: deleting `objectId` on class `Game` fails with code 136
and an empty effect trace. -/
theorem c6_delete_default_field_witness :
    deleteField ⟨.ok [], .ok (), .ok ()⟩ "objectId" "Game" =
      (.error ⟨136, "field objectId cannot be changed"⟩, []) :=
  c6_delete_default_field ⟨.ok [], .ok (), .ok ()⟩ "objectId" "Game" rfl rfl

/-- Counterexample for C1: the geopoint rejection of `validateObject` counts
GeoPoint values in the submitted object only and never consults the class
schema (the embedded loop takes no schema argument).  First conjunct: an
object that adds a single new GeoPoint field is not rejected — so on a
schema that already has one GeoPoint field the claimed failure does not
occur; the loop instead queues the field for enforcement.  Second conjunct:
an object carrying two GeoPoint values is rejected with the
too-many-geopoints error even though the schema (never read) may have zero
GeoPoint fields, contradicting the claim's second half. -/
theorem c1_counterexample :
    validateObjectCheck 3 [("spot", geoPointVal)] = .ok [("spot", .str "GeoPoint")] ∧
    validateObjectCheck 3 [("a", geoPointVal), ("b", geoPointVal)] = .error .tooManyGeoVO :=
  ⟨rfl, rfl⟩

/-- Counterexample for C5: the claim's ten-scalar-tag set includes `Bytes`
and `ACL`, but `fieldTypeIsInvalid` accepts only the eight tags of
`validNonRelationOrPointerTypes`: the declaration with tag `Bytes` is
accepted by the claim's predicate yet rejected by the code with
INCORRECT_TYPE (111). -/
theorem c5_counterexample :
    fieldTypeIsInvalid (.obj [("type", .str "Bytes")]) = .errF 111 "invalid field type" ∧
    specFieldTypeAccepts (.obj [("type", .str "Bytes")]) = true :=
  ⟨rfl, rfl⟩

/-- Counterexample for C7: `joinClassRegex` is anchored only on the left, so
`classNameIsValid` accepts `_Join:a:b$` although it is not a system class,
does not match the field-name pattern, and is not of the full
`_Join:<field>:<class>` form the claim describes (the trailing `$` is
outside every segment). -/
theorem c7_counterexample :
    classNameIsValid "_Join:a:b$" = true ∧ specClassNameValid "_Join:a:b$" = false :=
  ⟨rfl, rfl⟩

/-- Counterexample for C10: when the per-field loop of `validateSchemaData`
returns early (here: invalid field name `9bad` on class `_User`), the
caller-supplied `fields` mapping is returned untouched — in particular the
class-specific default column `username` has not been written into it,
although the claim asserts the mutation happens on every call. -/
theorem c10_counterexample :
    (validateSchemaData "_User" [("9bad", tyDecl "String")] none []).1 =
      .retErrV 105 "invalid field name: 9bad" ∧
    (validateSchemaData "_User" [("9bad", tyDecl "String")] none []).2 =
      [("9bad", tyDecl "String")] ∧
    lookupO (validateSchemaData "_User" [("9bad", tyDecl "String")] none []).2 "username" =
      none ∧
    lookupO (defaultColumnsFor "_User") "username" = some (tyDecl "String") :=
  ⟨rfl, rfl, rfl, rfl⟩

/- ## Helper lemmas for C3 and C4 -/

theorem vp_after_base (perms : PermsMap) (className : String) (aclGroup : List String)
    (operation : String) (cp : List (String × JVal))
    (hcp : perms className = some cp)
    (hbase0 : testBaseCLP perms className aclGroup operation = false)
    (htr : truthy (lookupF cp operation) = true) :
    validatePermission perms className aclGroup operation =
      (let permissionField :=
         if operation = "get" || operation = "find" then "readUserFields" else "writeUserFields"
       if permissionField = "writeUserFields" && operation = "create" then PermResult.forbiddenP
       else
         match lookupF cp permissionField with
         | .arr (_ :: _) => PermResult.resolvedP
         | _ => PermResult.forbiddenP) := by
  simp [validatePermission, hbase0, hcp, htr]

theorem match_nonEmptyArr (v : JVal) :
    ((match v with
      | .arr (_ :: _) => PermResult.resolvedP
      | _ => PermResult.forbiddenP) = PermResult.resolvedP) ↔ nonEmptyArr v = true := by
  cases v with
  | arr xs => cases xs <;> simp [nonEmptyArr]
  | undef => simp [nonEmptyArr]
  | jnull => simp [nonEmptyArr]
  | bool b => simp [nonEmptyArr]
  | num n => simp [nonEmptyArr]
  | str s => simp [nonEmptyArr]
  | obj l => simp [nonEmptyArr]

theorem match_nonEmptyArr_or (v : JVal) :
    (match v with
     | .arr (_ :: _) => PermResult.resolvedP
     | _ => PermResult.forbiddenP) = PermResult.resolvedP ∨
    (match v with
     | .arr (_ :: _) => PermResult.resolvedP
     | _ => PermResult.forbiddenP) = PermResult.forbiddenP := by
  cases v with
  | arr xs => cases xs <;> simp
  | undef => simp
  | jnull => simp
  | bool b => simp
  | num n => simp
  | str s => simp
  | obj l => simp

theorem base_denied_truthy (perms : PermsMap) (className : String) (aclGroup : List String)
    (operation : String) (cp : List (String × JVal))
    (hcp : perms className = some cp)
    (hbase0 : testBaseCLP perms className aclGroup operation = false) :
    truthy (lookupF cp operation) = true := by
  cases htruthy : truthy (lookupF cp operation)
  · simp [testBaseCLP, hcp, htruthy] at hbase0
  · rfl

/-- C3: whenever the base CLP check denies an operation (on a class with a
stored CLP), `validatePermission` resolves for `get`/`find` exactly when
`readUserFields` is a non-empty array, resolves for
`update`/`delete`/`addField` exactly when `writeUserFields` is a non-empty
array, always throws OperationForbidden for `create` even when
`writeUserFields` is non-empty, and in every denied case either resolves or
throws OperationForbidden (the stray `return true` branch is unreachable). -/
theorem c3_validate_permission (perms : PermsMap) (className : String)
    (aclGroup : List String) (operation : String) (cp : List (String × JVal))
    (hcp : perms className = some cp)
    (hbase : testBaseCLP perms className aclGroup operation = false)
    (hop : operation ∈ ["find", "get", "create", "update", "delete", "addField"]) :
    ((operation = "get" ∨ operation = "find") →
        (validatePermission perms className aclGroup operation = .resolvedP ↔
         nonEmptyArr (lookupF cp "readUserFields") = true)) ∧
    (operation = "create" →
        validatePermission perms className aclGroup operation = .forbiddenP) ∧
    ((operation = "update" ∨ operation = "delete" ∨ operation = "addField") →
        (validatePermission perms className aclGroup operation = .resolvedP ↔
         nonEmptyArr (lookupF cp "writeUserFields") = true)) ∧
    (validatePermission perms className aclGroup operation = .resolvedP ∨
     validatePermission perms className aclGroup operation = .forbiddenP) := by
  have htr := base_denied_truthy perms className aclGroup operation cp hcp hbase
  have hvp := vp_after_base perms className aclGroup operation cp hcp hbase htr
  fin_cases hop
  · rw [hvp]
    exact ⟨fun _ => match_nonEmptyArr _, fun hc => absurd hc (by decide),
           fun ho => absurd ho (by decide), match_nonEmptyArr_or _⟩
  · rw [hvp]
    exact ⟨fun _ => match_nonEmptyArr _, fun hc => absurd hc (by decide),
           fun ho => absurd ho (by decide), match_nonEmptyArr_or _⟩
  · rw [hvp]
    exact ⟨fun hg => absurd hg (by decide), fun _ => rfl,
           fun ho => absurd ho (by decide), Or.inr rfl⟩
  · rw [hvp]
    exact ⟨fun hg => absurd hg (by decide), fun hc => absurd hc (by decide),
           fun _ => match_nonEmptyArr _, match_nonEmptyArr_or _⟩
  · rw [hvp]
    exact ⟨fun hg => absurd hg (by decide), fun hc => absurd hc (by decide),
           fun _ => match_nonEmptyArr _, match_nonEmptyArr_or _⟩
  · rw [hvp]
    exact ⟨fun hg => absurd hg (by decide), fun hc => absurd hc (by decide),
           fun _ => match_nonEmptyArr _, match_nonEmptyArr_or _⟩

/-- Witness for C3 on a concrete class: with CLP
`find: (role:admin), readUserFields: [owner], create: (role:admin)` and an
anonymous caller, `find` resolves through the non-empty `readUserFields`
while `create` is forbidden despite a non-empty `writeUserFields`. -/
theorem c3_validate_permission_witness :
    validatePermission
      (fun c => if c = "Game" then
        some [("find", .obj [("role:admin", .bool true)]),
              ("create", .obj [("role:admin", .bool true)]),
              ("readUserFields", .arr [.str "owner"]),
              ("writeUserFields", .arr [.str "owner"])] else none)
      "Game" [] "find" = .resolvedP ∧
    validatePermission
      (fun c => if c = "Game" then
        some [("find", .obj [("role:admin", .bool true)]),
              ("create", .obj [("role:admin", .bool true)]),
              ("readUserFields", .arr [.str "owner"]),
              ("writeUserFields", .arr [.str "owner"])] else none)
      "Game" [] "create" = .forbiddenP := by
  constructor
  · exact ((c3_validate_permission
      (fun c => if c = "Game" then
        some [("find", .obj [("role:admin", .bool true)]),
              ("create", .obj [("role:admin", .bool true)]),
              ("readUserFields", .arr [.str "owner"]),
              ("writeUserFields", .arr [.str "owner"])] else none)
      "Game" [] "find"
      [("find", .obj [("role:admin", .bool true)]),
       ("create", .obj [("role:admin", .bool true)]),
       ("readUserFields", .arr [.str "owner"]),
       ("writeUserFields", .arr [.str "owner"])]
      rfl rfl (by decide)).1 (Or.inr rfl)).mpr rfl
  · exact (c3_validate_permission
      (fun c => if c = "Game" then
        some [("find", .obj [("role:admin", .bool true)]),
              ("create", .obj [("role:admin", .bool true)]),
              ("readUserFields", .arr [.str "owner"]),
              ("writeUserFields", .arr [.str "owner"])] else none)
      "Game" [] "create"
      [("find", .obj [("role:admin", .bool true)]),
       ("create", .obj [("role:admin", .bool true)]),
       ("readUserFields", .arr [.str "owner"]),
       ("writeUserFields", .arr [.str "owner"])]
      rfl rfl (by decide)).2.1 rfl

/-- C4: once a field has a recorded type `T` in the reloaded view, a further
`enforceFieldExists` with a declaration object `T'` that is not exactly
compatible (per `dbTypeMatchesObjectType`: same tag and same target class)
fails with the schema-mismatch error carrying the expected tag and the
actual tag, and a call with `T' = T` returns as a pure no-op, issuing no
adapter call and leaving the schema view unchanged. -/
theorem c4_enforce_field_type (data : SchemaData) (className fieldName : String)
    (T : JVal) (tt : String) (tpl : List (String × JVal))
    (hname : fieldNameIsValid fieldName = true)
    (hrec : getExpectedType data className fieldName = some T)
    (hT : getProp T "type" = .str tt)
    (htt : ¬ tt = "")
    (htc : getProp T "targetClass" = .undef ∨ ∃ s, getProp T "targetClass" = .str s) :
    (dbTypeMatchesObjectType T (.obj tpl) = false →
        enforceFieldExists data className fieldName (.obj tpl) =
          .mismatchE (.str tt) (getProp (.obj tpl) "type")) ∧
    enforceFieldExists data className fieldName T = .matchedNoop := by
  have hdot : dotIndex fieldName = -1 := valid_name_no_dot fieldName hname
  have hTobj : ∃ l, T = JVal.obj l := by
    cases T with
    | obj l => exact ⟨l, rfl⟩
    | undef => simp [getProp] at hT
    | jnull => simp [getProp] at hT
    | bool b => simp [getProp] at hT
    | num n => simp [getProp] at hT
    | str s => simp [getProp] at hT
    | arr xs => simp [getProp] at hT
  obtain ⟨tl, rfl⟩ := hTobj
  have hmatch : dbTypeMatchesObjectType (.obj tl) (.obj tl) = true := by
    rcases htc with h | ⟨s, h⟩ <;>
      simp [dbTypeMatchesObjectType, hT, h, strictEq]
  constructor
  · intro hmm
    simp [enforceFieldExists, hdot, hname, hrec, hmm, jsOr, hT, truthy, htt]
  · simp [enforceFieldExists, hdot, hname, hrec, hmatch, truthy]

/-- Witness for C4 on class `Game` with recorded `score : Number`: a second
enforcement with `String` fails carrying expected `Number` and actual
`String`, and a second enforcement with `Number` is a no-op. -/
theorem c4_enforce_field_type_witness :
    enforceFieldExists
      (fun c => if c = "Game" then some [("score", tyDecl "Number")] else none)
      "Game" "score" (.obj [("type", .str "String")]) =
      .mismatchE (.str "Number") (.str "String") ∧
    enforceFieldExists
      (fun c => if c = "Game" then some [("score", tyDecl "Number")] else none)
      "Game" "score" (tyDecl "Number") = .matchedNoop := by
  have h := c4_enforce_field_type
    (fun c => if c = "Game" then some [("score", tyDecl "Number")] else none)
    "Game" "score" (tyDecl "Number") "Number" [("type", .str "String")]
    rfl rfl rfl (by decide) (Or.inl rfl)
  exact ⟨h.1 rfl, h.2⟩

/- ## C10 amended -/

theorem vsd_fields_after_pass (cn : String) (fields : List (String × JVal))
    (clp : Option (List (String × JVal))) (ex : List String)
    (hpass : firstLoopCheck cn fields ex = .passF) :
    (validateSchemaData cn fields clp ex).2 = jsSpread fields (defaultColumnsFor cn) := by
  unfold validateSchemaData
  rw [hpass]
  dsimp only
  split_ifs with hgeo
  · rfl
  · cases hclp : validateCLP clp (jsSpread fields (defaultColumnsFor cn)) <;> rfl

/-- C10 (amended): whenever the per-field validation loop of
`validateSchemaData` completes without an early return, the fields mapping
handed back to the caller (the in-place-mutated argument of the source) has
every class-specific default column of the class written into it — whether
the call then succeeds or fails at the geopoint or CLP stage. -/
theorem c10_validate_schema_defaults (cn : String) (fields : List (String × JVal))
    (clp : Option (List (String × JVal))) (ex : List String)
    (hpass : firstLoopCheck cn fields ex = .passF) :
    ∀ key v, lookupO (defaultColumnsFor cn) key = some v →
      lookupO (validateSchemaData cn fields clp ex).2 key = some v := by
  intro key v hkv
  rw [vsd_fields_after_pass cn fields clp ex hpass, lookupO_jsSpread,
      lookupO_reverse_of_distinct _ _ (defaultColumnsFor_distinct cn), hkv]

/-- Witness for C10 (amended): a valid new field on `_User` passes the
per-field loop, and the returned mapping now carries the `username` default
column. -/
theorem c10_validate_schema_defaults_witness :
    lookupO (validateSchemaData "_User" [("nickname", tyDecl "String")] none []).2
      "username" = some (tyDecl "String") :=
  c10_validate_schema_defaults "_User" [("nickname", tyDecl "String")] none [] rfl
    "username" (tyDecl "String") rfl

/- ## C5 amended -/

/-- C5 (amended): `fieldTypeIsInvalid` returns no error exactly when the
declaration carries one of the eight scalar tags of
`validNonRelationOrPointerTypes`, or a `Pointer`/`Relation` tag with a
nonempty string `targetClass` passing class-name validation; in particular
`Bytes` and `ACL` are rejected, and nullish declarations throw. -/
theorem c5_field_type_amended (decl : JVal) :
    (fieldTypeIsInvalid decl = .okF) ↔ amendedFieldTypeAccepts decl = true := by
  cases decl with
  | undef => simp [fieldTypeIsInvalid, amendedFieldTypeAccepts]
  | jnull => simp [fieldTypeIsInvalid, amendedFieldTypeAccepts]
  | bool b => simp [fieldTypeIsInvalid, amendedFieldTypeAccepts, getProp, includesStr, isStrJ]
  | num n => simp [fieldTypeIsInvalid, amendedFieldTypeAccepts, getProp, includesStr, isStrJ]
  | str s => simp [fieldTypeIsInvalid, amendedFieldTypeAccepts, getProp, includesStr, isStrJ]
  | arr xs => simp [fieldTypeIsInvalid, amendedFieldTypeAccepts, getProp, includesStr, isStrJ]
  | obj l =>
      simp only [fieldTypeIsInvalid, amendedFieldTypeAccepts]
      cases hty : getProp (JVal.obj l) "type" with
      | str t =>
          by_cases hpr : t = "Pointer" ∨ t = "Relation"
          · have hcont : includesStr ["Pointer", "Relation"] (.str t) = true := by
              rcases hpr with h | h <;> simp [includesStr, h, List.contains_eq_any_beq, List.any]
            cases htc : getProp (JVal.obj l) "targetClass" with
            | str tc =>
                by_cases h0 : tc = ""
                · subst h0
                  simp [hcont, hpr, truthy, isStrJ]
                · by_cases hv : classNameIsValid tc = true
                  · simp [hcont, hpr, h0, hv, truthy, isStrJ]
                  · simp [hcont, hpr, h0, hv, truthy, isStrJ]
            | undef => simp [hcont, hpr, truthy]
            | jnull => simp [hcont, hpr, truthy]
            | bool b => cases b <;> simp [hcont, hpr, truthy, isStrJ]
            | num n =>
                by_cases hn : n = 0
                · subst hn; simp [hcont, hpr, truthy]
                · simp [hcont, hpr, truthy, isStrJ, hn]
            | arr xs => simp [hcont, hpr, truthy, isStrJ]
            | obj l2 => simp [hcont, hpr, truthy, isStrJ]
          · have hcont : includesStr ["Pointer", "Relation"] (.str t) = false := by
              push_neg at hpr
              simp [includesStr, List.contains_eq_any_beq, List.any, hpr.1, hpr.2]
            by_cases h8 : validNonRelationOrPointerTypes.contains t = true
            · simp [hcont, hpr, h8, includesStr, isStrJ]
            · simp [hcont, hpr, h8, includesStr, isStrJ]
      | undef => simp [includesStr, isStrJ]
      | jnull => simp [includesStr, isStrJ]
      | bool b => simp [includesStr, isStrJ]
      | num n => simp [includesStr, isStrJ]
      | arr xs => simp [includesStr, isStrJ]
      | obj l2 => simp [includesStr, isStrJ]

/-- Witness for C5 (amended) at concrete declarations: a `String` scalar and
a valid `Pointer` are accepted; a `Bytes` scalar is not. -/
theorem c5_field_type_amended_witness :
    (fieldTypeIsInvalid (tyDecl "String") = .okF) ∧
    (fieldTypeIsInvalid (tyDeclTC "Pointer" "Game") = .okF) ∧
    ¬ (fieldTypeIsInvalid (tyDecl "Bytes") = .okF) := by
  refine ⟨?_, ?_, ?_⟩
  · exact (c5_field_type_amended (tyDecl "String")).mpr rfl
  · exact (c5_field_type_amended (tyDeclTC "Pointer" "Game")).mpr rfl
  · intro h
    exact absurd ((c5_field_type_amended (tyDecl "Bytes")).mp h) (by decide)

/- ## C7 amended -/

theorem contains_eq_true_iff (l : List String) (k : String) :
    l.contains k = true ↔ k ∈ l := by
  constructor
  · intro h
    by_contra hmem
    rw [(contains_eq_false_iff l k).mpr hmem] at h
    simp at h
  · intro hmem
    cases hc : l.contains k
    · exact absurd hmem ((contains_eq_false_iff l k).mp hc)
    · rfl

theorem joinClassTest_iff (s : String) :
    joinClassTest s = true ↔
      ∃ a b t : List Char,
        s.data = "_Join:".data ++ (a ++ ':' :: (b ++ t)) ∧
        a ≠ [] ∧ a.all isWordCh = true ∧ b ≠ [] ∧ b.all isWordCh = true := by
  constructor
  · intro h
    unfold joinClassTest at h
    cases hdl : dropLit ("_Join:".data) s.data with
    | none => rw [hdl] at h; simp at h
    | some rest =>
        rw [hdl] at h
        replace h : joinTailTest rest = true := h
        have hs := dropLit_sound _ _ _ hdl
        unfold joinTailTest at h
        cases htw : rest.takeWhile isWordCh with
        | nil => rw [htw] at h; simp at h
        | cons x xs =>
            cases hdw : rest.dropWhile isWordCh with
            | nil => rw [htw, hdw] at h; simp at h
            | cons c r2 =>
                rw [htw, hdw] at h
                simp only [Bool.and_eq_true, decide_eq_true_eq] at h
                obtain ⟨hc, hne⟩ := h
                subst hc
                refine ⟨x :: xs, r2.takeWhile isWordCh, r2.dropWhile isWordCh, ?_, by simp, ?_, ?_, ?_⟩
                · rw [hs]
                  have h1 : rest = (x :: xs) ++ ':' :: r2 := by
                    rw [← htw, ← hdw, List.takeWhile_append_dropWhile]
                  rw [h1, List.takeWhile_append_dropWhile]
                · rw [← htw]
                  exact takeWhile_all _ _
                · intro hb
                  rw [hb] at hne
                  simp at hne
                · exact takeWhile_all _ _
  · rintro ⟨a, b, t, hs, ha, haw, hb, hbw⟩
    have hred : joinClassTest s = joinTailTest (a ++ ':' :: (b ++ t)) := by
      unfold joinClassTest
      rw [hs, dropLit_complete]
    rw [hred]
    unfold joinTailTest
    rw [takeWhile_append_of_all isWordCh a ':' (b ++ t) haw (by decide),
        dropWhile_append_of_all isWordCh a ':' (b ++ t) haw (by decide)]
    cases a with
    | nil => exact absurd rfl ha
    | cons x xs =>
        cases b with
        | nil => exact absurd rfl hb
        | cons y ys =>
            have hy : isWordCh y = true := by
              have := List.all_eq_true.mp hbw y (List.mem_cons_self y ys)
              exact this
            simp [List.takeWhile_cons, hy]

/-- C7 (amended): `classNameIsValid` accepts exactly the fixed system-class
names, the strings whose character sequence begins with
`_Join:<seg1>:<seg2>` for nonempty word-character segments (anything may
follow the second segment, because the join regex is left-anchored only),
and the strings matching the field-name pattern in full. -/
theorem c7_classname_amended (s : String) :
    classNameIsValid s = true ↔
      (s ∈ systemClasses ∨
       (∃ a b t : List Char,
          s.data = "_Join:".data ++ (a ++ ':' :: (b ++ t)) ∧
          a ≠ [] ∧ a.all isWordCh = true ∧ b ≠ [] ∧ b.all isWordCh = true) ∨
       fieldNameIsValid s = true) := by
  unfold classNameIsValid
  rw [Bool.or_eq_true, Bool.or_eq_true, contains_eq_true_iff, joinClassTest_iff, or_assoc]

/-- Witness for C7 (amended): `_Join:score:Game` is a valid class name via
the join pattern. -/
theorem c7_classname_amended_witness : classNameIsValid "_Join:score:Game" = true :=
  (c7_classname_amended "_Join:score:Game").mpr
    (Or.inr (Or.inl ⟨"score".data, "Game".data, [], by decide, by decide, by decide,
       by decide, by decide⟩))

/- ## C1 amended -/

theorem strictEq_str_right (v : JVal) (s : String) (h : strictEq v (.str s) = true) :
    v = .str s := by
  cases v with
  | str a => simp only [strictEq, beq_iff_eq] at h; rw [h]
  | undef => simp [strictEq] at h
  | jnull => simp [strictEq] at h
  | bool b => simp [strictEq] at h
  | num n => simp [strictEq] at h
  | arr xs => simp [strictEq] at h
  | obj l => simp [strictEq] at h

theorem loop_geo_iff (fuel : Nat) (rest : List (String × JVal)) :
    ∀ (g : Nat) (acc : List (String × JVal)),
      (∀ p ∈ rest, strictEq p.2 .undef = false → ∃ tv, getType fuel p.2 = .ok tv) →
      g ≤ 1 →
      (validateObjectLoop fuel rest g acc = .error .tooManyGeoVO ↔
        2 ≤ g + geoValueCount fuel rest) := by
  induction rest with
  | nil =>
      intro g acc hok hg
      constructor
      · intro h; simp [validateObjectLoop] at h
      · intro h
        simp [geoValueCount] at h
        exact absurd h (by omega)
  | cons p rs ih =>
      intro g acc hok hg
      obtain ⟨f, v⟩ := p
      have hok' : ∀ q ∈ rs, strictEq q.2 .undef = false → ∃ tv, getType fuel q.2 = .ok tv :=
        fun q hq => hok q (List.mem_cons_of_mem _ hq)
      by_cases hu : strictEq v .undef = true
      · have hcount : geoValueCount fuel ((f, v) :: rs) = geoValueCount fuel rs := by
          simp [geoValueCount, List.filter_cons, hu]
        have hloop : validateObjectLoop fuel ((f, v) :: rs) g acc =
            validateObjectLoop fuel rs g acc := by
          simp [validateObjectLoop, hu]
        rw [hcount, hloop]
        exact ih g acc hok' hg
      · have hu' : strictEq v .undef = false := by
          revert hu; cases strictEq v .undef <;> simp
        obtain ⟨tv, htv⟩ := hok (f, v) (List.mem_cons_self _ _) hu'
        by_cases hgeo : strictEq tv (.str "GeoPoint") = true
        · have hveq := strictEq_str_right tv "GeoPoint" hgeo
          subst hveq
          have hcount : geoValueCount fuel ((f, v) :: rs) = geoValueCount fuel rs + 1 := by
            simp [geoValueCount, List.filter_cons, hu', htv, hgeo]
          by_cases hg1 : g + 1 > 1
          · have hloop : validateObjectLoop fuel ((f, v) :: rs) g acc = .error .tooManyGeoVO := by
              simp [validateObjectLoop, hu', htv, hgeo, hg1]
            rw [hloop, hcount]
            constructor
            · intro _; omega
            · intro _; rfl
          · have hg0 : g = 0 := by omega
            subst hg0
            have hloop : validateObjectLoop fuel ((f, v) :: rs) 0 acc =
                (if f = "ACL" then validateObjectLoop fuel rs 1 acc
                 else validateObjectLoop fuel rs 1 ((f, .str "GeoPoint") :: acc)) := by
              simp [validateObjectLoop, hu', htv, hgeo, truthy]
            rw [hloop, hcount]
            by_cases hacl : f = "ACL"
            · rw [if_pos hacl, ih 1 acc hok' (by omega)]
              omega
            · rw [if_neg hacl, ih 1 ((f, .str "GeoPoint") :: acc) hok' (by omega)]
              omega
        · have hgeo' : strictEq tv (.str "GeoPoint") = false := by
            revert hgeo; cases strictEq tv (.str "GeoPoint") <;> simp
          have hcount : geoValueCount fuel ((f, v) :: rs) = geoValueCount fuel rs := by
            simp [geoValueCount, List.filter_cons, hu', htv, hgeo']
          have hng : ¬ (g > 1) := by omega
          have hloop : validateObjectLoop fuel ((f, v) :: rs) g acc =
              (if truthy tv = false then validateObjectLoop fuel rs g acc
               else if f = "ACL" then validateObjectLoop fuel rs g acc
               else validateObjectLoop fuel rs g ((f, tv) :: acc)) := by
            by_cases htr : truthy tv = true
            · simp [validateObjectLoop, hu', htv, hgeo', hng, htr]
            · have htr' : truthy tv = false := by revert htr; cases truthy tv <;> simp
              simp [validateObjectLoop, hu', htv, hgeo', hng, htr']
          rw [hloop, hcount]
          by_cases htr : truthy tv = false
          · rw [if_pos htr]; exact ih g acc hok' hg
          · rw [if_neg htr]
            by_cases hacl : f = "ACL"
            · rw [if_pos hacl]; exact ih g acc hok' hg
            · rw [if_neg hacl]; exact ih g ((f, tv) :: acc) hok' hg

/-- C1 (amended): for any submitted object whose defined values all classify
without throwing, `validateObject` raises the too-many-geopoints error
exactly when the object itself supplies at least two GeoPoint-classified
values — independently of the class schema, which the geopoint counter never
consults. -/
theorem c1_geo_count_amended (fuel : Nat) (object : List (String × JVal))
    (hok : ∀ p ∈ object, strictEq p.2 .undef = false → ∃ tv, getType fuel p.2 = .ok tv) :
    (validateObjectCheck fuel object = .error .tooManyGeoVO ↔
      2 ≤ geoValueCount fuel object) := by
  have h := loop_geo_iff fuel object 0 [] hok (by omega)
  simpa using h

/-- Witness for C1 (amended): an object with two GeoPoint values is rejected
with the too-many-geopoints error. -/
theorem c1_geo_count_amended_witness :
    validateObjectCheck 3 [("a", geoPointVal), ("b", geoPointVal)] = .error .tooManyGeoVO := by
  refine (c1_geo_count_amended 3 [("a", geoPointVal), ("b", geoPointVal)] ?_).mpr (by decide)
  intro p hp hu
  simp only [List.mem_cons, List.mem_singleton] at hp
  rcases hp with hp | hp | hp
  · subst hp; exact ⟨.str "GeoPoint", rfl⟩
  · subst hp; exact ⟨.str "GeoPoint", rfl⟩
  · exact absurd hp (List.not_mem_nil p)

/- ## C2 round trip -/

theorem lookup_spread_defaults_eq (cn : String) (fs : List (String × JVal)) (k : String)
    (hfs : keysDistinct fs = true)
    (hdc : lookupO (defaultColumnsFor cn) k = none)
    (hdd : lookupO defaultColumnsDefault k = none) :
    lookupO (jsSpread (jsSpread defaultColumnsDefault (defaultColumnsFor cn)) fs) k =
      lookupO fs k := by
  rw [lookupO_jsSpread, lookupO_reverse_of_distinct _ _ hfs]
  cases hsf : lookupO fs k
  · rw [lookupO_jsSpread, lookupO_reverse_none _ _ hdc]
    exact hdd
  · rfl

/-- C2: the two schema-shape conversions are exact inverses with respect to
the fields they touch.  For a schema in public representation,
adapter-then-parse conversion restores the `ACL`, `_rperm`, `_wperm`,
`password` and `_hashed_password` bindings exactly; for a schema in adapter
representation, parse-then-adapter conversion does the same.  Both hold for
user and non-user classes. -/
theorem c2_roundtrip (s : PSchema) (hdist : keysDistinct s.fields = true) :
    (publicRepForm s → ∀ k ∈ touchedKeys,
        lookupO (convertAdapterSchemaToParseSchema (convertSchemaToAdapterSchema s)).fields k =
          lookupO s.fields k) ∧
    (adapterRepForm s → ∀ k ∈ touchedKeys,
        lookupO (convertSchemaToAdapterSchema (convertAdapterSchemaToParseSchema s)).fields k =
          lookupO s.fields k) := by
  constructor
  · intro hform k hk
    obtain ⟨hACL, hrp, hwp, huser⟩ := hform
    by_cases hu : s.className = "_User"
    · obtain ⟨hpw, hhp⟩ := huser hu
      fin_cases hk
      · simp [convertSchemaToAdapterSchema, convertAdapterSchemaToParseSchema,
              injectDefaultSchema, hu, lookupO_setKey, lookupO_eraseKey, hACL]
      · simp [convertSchemaToAdapterSchema, convertAdapterSchemaToParseSchema,
              injectDefaultSchema, hu, lookupO_setKey, lookupO_eraseKey, hrp]
      · simp [convertSchemaToAdapterSchema, convertAdapterSchemaToParseSchema,
              injectDefaultSchema, hu, lookupO_setKey, lookupO_eraseKey, hwp]
      · simp [convertSchemaToAdapterSchema, convertAdapterSchemaToParseSchema,
              injectDefaultSchema, hu, lookupO_setKey, lookupO_eraseKey, hpw]
      · simp [convertSchemaToAdapterSchema, convertAdapterSchemaToParseSchema,
              injectDefaultSchema, hu, lookupO_setKey, lookupO_eraseKey, hhp]
    · fin_cases hk
      · simp [convertSchemaToAdapterSchema, convertAdapterSchemaToParseSchema,
              injectDefaultSchema, hu, lookupO_setKey, lookupO_eraseKey, hACL]
      · simp [convertSchemaToAdapterSchema, convertAdapterSchemaToParseSchema,
              injectDefaultSchema, hu, lookupO_setKey, lookupO_eraseKey, hrp]
      · simp [convertSchemaToAdapterSchema, convertAdapterSchemaToParseSchema,
              injectDefaultSchema, hu, lookupO_setKey, lookupO_eraseKey, hwp]
      · simp only [convertSchemaToAdapterSchema, convertAdapterSchemaToParseSchema,
                   injectDefaultSchema, hu, if_false, ite_false]
        simp [hu, lookupO_setKey, lookupO_eraseKey]
        exact lookup_spread_defaults_eq s.className s.fields "password" hdist
          (defaults_no_password s.className hu) rfl
      · simp [convertSchemaToAdapterSchema, convertAdapterSchemaToParseSchema,
              injectDefaultSchema, hu, lookupO_setKey, lookupO_eraseKey]
        exact lookup_spread_defaults_eq s.className s.fields "_hashed_password" hdist
          (defaults_no_hashed s.className) rfl
  · intro hform k hk
    obtain ⟨hACL, hrp, hwp, huser⟩ := hform
    by_cases hu : s.className = "_User"
    · obtain ⟨hpw, hhp⟩ := huser hu
      fin_cases hk
      · simp [convertSchemaToAdapterSchema, convertAdapterSchemaToParseSchema,
              injectDefaultSchema, hu, lookupO_setKey, lookupO_eraseKey, hACL]
      · simp [convertSchemaToAdapterSchema, convertAdapterSchemaToParseSchema,
              injectDefaultSchema, hu, lookupO_setKey, lookupO_eraseKey, hrp]
      · simp [convertSchemaToAdapterSchema, convertAdapterSchemaToParseSchema,
              injectDefaultSchema, hu, lookupO_setKey, lookupO_eraseKey, hwp]
      · simp [convertSchemaToAdapterSchema, convertAdapterSchemaToParseSchema,
              injectDefaultSchema, hu, lookupO_setKey, lookupO_eraseKey, hpw]
      · simp [convertSchemaToAdapterSchema, convertAdapterSchemaToParseSchema,
              injectDefaultSchema, hu, lookupO_setKey, lookupO_eraseKey, hhp]
    · have hPdist :
          keysDistinct
            (setKey (eraseKey (eraseKey s.fields "_rperm") "_wperm") "ACL" (tyDecl "ACL")) =
            true :=
        keysDistinct_setKey _ _ _ (keysDistinct_eraseKey _ _ (keysDistinct_eraseKey _ _ hdist))
      fin_cases hk
      · simp [convertSchemaToAdapterSchema, convertAdapterSchemaToParseSchema,
              injectDefaultSchema, hu, lookupO_setKey, lookupO_eraseKey, hACL]
      · simp [convertSchemaToAdapterSchema, convertAdapterSchemaToParseSchema,
              injectDefaultSchema, hu, lookupO_setKey, lookupO_eraseKey, hrp]
      · simp [convertSchemaToAdapterSchema, convertAdapterSchemaToParseSchema,
              injectDefaultSchema, hu, lookupO_setKey, lookupO_eraseKey, hwp]
      · simp [convertSchemaToAdapterSchema, convertAdapterSchemaToParseSchema,
              injectDefaultSchema, hu, lookupO_setKey, lookupO_eraseKey]
        rw [lookup_spread_defaults_eq s.className _ "password" hPdist
          (defaults_no_password s.className hu) rfl]
        simp [lookupO_setKey, lookupO_eraseKey]
      · simp [convertSchemaToAdapterSchema, convertAdapterSchemaToParseSchema,
              injectDefaultSchema, hu, lookupO_setKey, lookupO_eraseKey]
        rw [lookup_spread_defaults_eq s.className _ "_hashed_password" hPdist
          (defaults_no_hashed s.className) rfl]
        simp [lookupO_setKey, lookupO_eraseKey]

/-- Witness for C2 at concrete schemas: a public `_User` schema round-trips
its `password` binding through the adapter shape and back, and an adapter
`Game` schema round-trips its `_rperm` binding through the public shape and
back. -/
theorem c2_roundtrip_witness :
    lookupO (convertAdapterSchemaToParseSchema (convertSchemaToAdapterSchema
        ⟨"_User", [("ACL", tyDecl "ACL"), ("password", tyDecl "String"),
                   ("nickname", tyDecl "String")], .undef⟩)).fields "password" =
      lookupO [("ACL", tyDecl "ACL"), ("password", tyDecl "String"),
               ("nickname", tyDecl "String")] "password" ∧
    lookupO (convertSchemaToAdapterSchema (convertAdapterSchemaToParseSchema
        ⟨"Game", [("_rperm", tyDecl "Array"), ("_wperm", tyDecl "Array"),
                  ("score", tyDecl "Number")], .undef⟩)).fields "_rperm" =
      lookupO [("_rperm", tyDecl "Array"), ("_wperm", tyDecl "Array"),
               ("score", tyDecl "Number")] "_rperm" := by
  constructor
  · exact (c2_roundtrip
      ⟨"_User", [("ACL", tyDecl "ACL"), ("password", tyDecl "String"),
                 ("nickname", tyDecl "String")], .undef⟩ (by decide)).1
      ⟨rfl, rfl, rfl, fun _ => ⟨rfl, rfl⟩⟩ "password" (by decide)
  · exact (c2_roundtrip
      ⟨"Game", [("_rperm", tyDecl "Array"), ("_wperm", tyDecl "Array"),
                ("score", tyDecl "Number")], .undef⟩ (by decide)).2
      ⟨rfl, rfl, rfl, fun h => absurd h (by decide)⟩ "_rperm" (by decide)
